import Mathlib

/-!
Shallow embedding of the `python-blueflood` client library
(`bluefloodclient/client.py`) in Lean 4, together with theorems that check
the natural-language specification of the repository against the code.

Modelling conventions:
* Python `dict`-shaped data (service-catalog entries, endpoints, HTTP
  responses) becomes Lean structures with the fields the code reads.
* The mutable `Blueflood` object becomes an explicit `ClientState` record;
  each method is a function from state to state (plus results).
* Network I/O is abstracted into oracles passed in as arguments: the
  identity exchange (`requests.post` to the auth endpoint, including
  `raise_for_status` and JSON parsing) becomes an `AuthResult` value, and
  the data-plane transport becomes a function from the send index to an
  `HttpResponse`.
* A raised Python exception becomes `Except.error`; `resp.json()` raising
  `ValueError` is modelled by `HttpResponse.json = none`.
* Counters of identity exchanges and the list of data-plane sends (each
  recorded by the `X-Auth-Token` value it carried) are threaded through so
  that temporal claims ("exactly one exchange", "at most two sends") can be
  stated about a single call.
-/

namespace Blueflood

/-- One endpoint record inside a service-catalog entry.  The code reads
`e.get('region')` (which may be absent, hence `Option`) and
`e['publicURL']`. -/
structure Endpoint where
  region : Option String
  publicURL : String
deriving DecidableEq, Repr

/-- One service-catalog entry: the code reads `s['name']` and
`s.get('endpoints', [])`; it also carries a `type` field it never reads. -/
structure Service where
  name : String
  type : String
  endpoints : List Endpoint
deriving DecidableEq, Repr

/-- The parsed body of a successful identity-exchange response:
`resp_json['access']['token']['id']` and
`resp_json['access']['serviceCatalog']`. -/
structure AuthResponse where
  tokenId : String
  serviceCatalog : List Service
deriving DecidableEq, Repr

/-- Outcome of one identity exchange: either a parsed response, or the
exception raised by `resp.raise_for_status()` / missing JSON fields. -/
inductive AuthResult where
  | ok (resp : AuthResponse)
  | err
deriving DecidableEq, Repr

/-- The mutable state of a `Blueflood` client object, from
`Blueflood.__init__`: `self._read_url` and `self._ingest_url` are the
explicit URL overrides, `self._token` the cached token, and
`self.read_service` / `self.ingest_service` the cached catalog entries. -/
structure ClientState where
  auth_url : String
  read_url_override : Option String
  ingest_url_override : Option String
  apikey : String
  username : String
  token : Option String
  read_service : Option Service
  ingest_service : Option Service
  region : String
deriving DecidableEq, Repr

/-- A data-plane HTTP response: its status code, and the decoded JSON body
when `resp.json()` succeeds (`none` models the body being empty or not
valid JSON, i.e. `resp.json()` raising `ValueError`).  The decoded value is
modelled as an opaque `String`. -/
structure HttpResponse where
  status : Nat
  json : Option String
deriving DecidableEq, Repr

/-- Errors a `request` call can raise: a failed identity exchange, or the
`requests.exceptions.HTTPError` raised by `resp.raise_for_status()`. -/
inductive ReqError where
  | authError
  | httpError (status : Nat)
deriving DecidableEq, Repr

/-- The status codes for which `resp.raise_for_status()` raises:
client errors (4xx) and server errors (5xx). -/
def isErrorStatus (status : Nat) : Bool :=
  400 ≤ status && status < 600

/-- The default TTL from `Datapoint.__init__`: `60 * 60 * 24 * 180`. -/
def defaultTTL : Int := 60 * 60 * 24 * 180

/-- A constructed `Datapoint` (a dict in the code), with the keys
`Datapoint.__init__` writes. -/
structure Datapoint where
  metricName : String
  metricValue : Int
  collectionTime : Int
  ttlInSeconds : Int
  unit : Option String
deriving DecidableEq, Repr

/-- Embedding of `Datapoint.__init__`.  `none` for an argument models the
Python default `None`; `now` stands for `utils.time_in_ms()`.  Python
truthiness: `not ttl_seconds` holds for `None` and `0`; `if unit:` holds
for a non-empty string. -/
def Datapoint.init (name : String) (value : Int) (collection_time : Option Int)
    (ttl_seconds : Option Int) (unit : Option String) (now : Int) : Datapoint :=
  let ct : Int :=
    match collection_time with
    | none => now
    | some c => c
  let ttl0 : Int :=
    match ttl_seconds with
    | none => defaultTTL
    | some v => if v = 0 then defaultTTL else v
  let ttl : Int := max ttl0 0
  let u : Option String :=
    match unit with
    | none => none
    | some s => if s = "" then none else some s
  { metricName := name, metricValue := value, collectionTime := ct,
    ttlInSeconds := ttl, unit := u }

/-- Embedding of `Blueflood.invalidate_token`: `self._token = None`. -/
def invalidate_token (s : ClientState) : ClientState :=
  { s with token := none }

/-- Embedding of `Blueflood.update_catalog`: iterate over the catalog
entries; an entry named `cloudMetricsIngest` is stored as the ingest
service, one named `cloudMetrics` as the read service.  Entries whose name
matches neither are ignored, and nothing is ever cleared. -/
def update_catalog (s : ClientState) (service_catalog : List Service) : ClientState :=
  service_catalog.foldl
    (fun st sv =>
      if sv.name = "cloudMetricsIngest" then { st with ingest_service := some sv }
      else if sv.name = "cloudMetrics" then { st with read_service := some sv }
      else st)
    s

/-- Embedding of `Blueflood.get_token`.  Returns the cached token with no
identity exchange when one is present; otherwise performs the identity
exchange (its outcome supplied as `auth`), stores the token, updates the
catalog and returns the new token.  The returned `Nat` counts the identity
exchanges performed (0 or 1); `Except.error` models the exception raised
when the exchange fails. -/
def get_token (auth : AuthResult) (s : ClientState) :
    Except Unit (String × ClientState × Nat) :=
  match s.token with
  | some t => .ok (t, s, 0)
  | none =>
    match auth with
    | .err => .error ()
    | .ok resp =>
      let s1 := { s with token := some resp.tokenId }
      let s2 := update_catalog s1 resp.serviceCatalog
      .ok (resp.tokenId, s2, 1)

/-- Embedding of `Blueflood.url_for_region`: scan the endpoint list for the
first endpoint whose region equals the requested one and return its public
URL; falling off the loop returns `None`. -/
def url_for_region (service : Service) (region : String) : Option String :=
  (service.endpoints.find? (fun e => e.region = some region)).map
    (fun e => e.publicURL)

/-- Embedding of `Blueflood.read_url`: the override if configured, else the
catalog lookup if a read service is cached, else
`raise Exception("No read service found")`. -/
def read_url (s : ClientState) (region : String) : Except Unit (Option String) :=
  match s.read_url_override with
  | some u => .ok (some u)
  | none =>
    match s.read_service with
    | some svc => .ok (url_for_region svc region)
    | none => .error ()

/-- Embedding of `Blueflood.ingest_url`: same shape as `read_url` with the
ingest override and the ingest service. -/
def ingest_url (s : ClientState) (region : String) : Except Unit (Option String) :=
  match s.ingest_url_override with
  | some u => .ok (some u)
  | none =>
    match s.ingest_service with
    | some svc => .ok (url_for_region svc region)
    | none => .error ()

/-- Result of one `Blueflood.request` call: the outcome (decoded JSON body,
`none` for no content, or a raised error), the client state afterwards, the
data-plane sends performed (each recorded by the `X-Auth-Token` value it
carried, in order), and the number of identity exchanges performed. -/
structure ReqResult where
  outcome : Except ReqError (Option String)
  state : ClientState
  sends : List String
  exchanges : Nat
deriving Repr

/-- Embedding of `Blueflood.request`.  `transport i` is the response to the
i-th data-plane send of this call; `auth i` is the outcome of the i-th
identity exchange of this call.  Flow, as in the code: obtain a token via
`get_token`; send; if the status is 401, invalidate the token, obtain a
fresh one and send again; then `raise_for_status`; then return the decoded
JSON body, or `none` when decoding raises `ValueError`. -/
def request (transport : Nat → HttpResponse) (auth : Nat → AuthResult)
    (s : ClientState) : ReqResult :=
  match get_token (auth 0) s with
  | .error _ => ⟨.error .authError, s, [], 0⟩
  | .ok (tok, s1, n1) =>
    let resp := transport 0
    if resp.status = 401 then
      let s2 := invalidate_token s1
      match get_token (auth n1) s2 with
      | .error _ => ⟨.error .authError, s2, [tok], n1⟩
      | .ok (tok2, s3, n2) =>
        let resp2 := transport 1
        if isErrorStatus resp2.status then
          ⟨.error (.httpError resp2.status), s3, [tok, tok2], n1 + n2⟩
        else
          ⟨.ok resp2.json, s3, [tok, tok2], n1 + n2⟩
    else
      if isErrorStatus resp.status then
        ⟨.error (.httpError resp.status), s1, [tok], n1⟩
      else
        ⟨.ok resp.json, s1, [tok], n1⟩

/-- Embedding of `Blueflood.__init__`: store the constructor arguments,
set the token and both cached services to `None`, then call
`self.get_token()` (so construction itself performs an identity exchange
when it succeeds).  The `Nat` counts identity exchanges performed during
construction. -/
def init (auth_url : String) (apikey : String) (username : String)
    (region : String) (ingest_url_override read_url_override : Option String)
    (auth : AuthResult) : Except Unit (ClientState × Nat) :=
  let s0 : ClientState :=
    { auth_url := auth_url, read_url_override := read_url_override,
      ingest_url_override := ingest_url_override, apikey := apikey,
      username := username, token := none, read_service := none,
      ingest_service := none, region := region }
  match get_token auth s0 with
  | .error _ => .error ()
  | .ok (_, s1, n) => .ok (s1, n)

/-- One step of the `update_catalog` loop. -/
def catalogStep (st : ClientState) (sv : Service) : ClientState :=
  if sv.name = "cloudMetricsIngest" then { st with ingest_service := some sv }
  else if sv.name = "cloudMetrics" then { st with read_service := some sv }
  else st

/-! Concrete fixtures used by counterexamples and witnesses. -/

/-- A read service whose only endpoint is in region ORD. -/
def ordOnlyService : Service :=
  { name := "cloudMetrics", type := "rax:metrics",
    endpoints := [{ region := some "ORD", publicURL := "http://ord.example" }] }

/-- A client state with no URL overrides, a cached token, and a cached read
service whose endpoints are all in region ORD. -/
def ordOnlyState : ClientState :=
  { auth_url := "http://auth.example", read_url_override := none,
    ingest_url_override := none, apikey := "key", username := "user",
    token := some "tok0", read_service := some ordOnlyService,
    ingest_service := none, region := "IAD" }

/-- A client state with both URL overrides configured and no cached
catalog entries at all. -/
def overrideOnlyState : ClientState :=
  { ordOnlyState with
    read_url_override := some "http://r.example"
    ingest_url_override := some "http://i.example"
    read_service := none
    ingest_service := none }

/-- The ORD-only client state with no cached token. -/
def staleCatalogState : ClientState :=
  { ordOnlyState with token := none }

/-- The expected state after an identity exchange, starting from
`staleCatalogState`, whose response carries the token `newtok` and an
empty service catalog. -/
def afterEmptyCatalogState : ClientState :=
  { ordOnlyState with token := some "newtok" }

/-- The expected state after an identity exchange, starting from
`staleCatalogState`, whose response carries the token `tok1` and an empty
service catalog. -/
def cachedTok1State : ClientState :=
  { ordOnlyState with token := some "tok1" }

/-- An ingest service with no endpoints. -/
def ingestOnlyService : Service :=
  { name := "cloudMetricsIngest", type := "rax:metrics", endpoints := [] }

/-- The expected state after constructing a client against an identity
service that answers with token `tok0` and an empty service catalog. -/
def constructedState : ClientState :=
  { auth_url := "http://auth.example", read_url_override := none,
    ingest_url_override := none, apikey := "key", username := "user",
    token := some "tok0", read_service := none, ingest_service := none,
    region := "IAD" }

/-- A data-plane transport that answers every send with 401 and no body. -/
def trAlways401 : Nat → HttpResponse := fun _ => { status := 401, json := none }

/-- A data-plane transport that answers every send with 200 and a body
that is empty or not valid JSON. -/
def trNoContent : Nat → HttpResponse := fun _ => { status := 200, json := none }

/-- An identity service that always succeeds with token `fresh` and an
empty service catalog. -/
def auFresh : Nat → AuthResult :=
  fun _ => .ok { tokenId := "fresh", serviceCatalog := [] }

/-! Helper lemmas about `update_catalog` (shared infrastructure, not tied to
any single claim). -/

theorem update_catalog_eq_foldl (s : ClientState) (c : List Service) :
    update_catalog s c = c.foldl catalogStep s := rfl

theorem catalogStep_token (st : ClientState) (sv : Service) :
    (catalogStep st sv).token = st.token := by
  unfold catalogStep
  split
  · rfl
  · split <;> rfl

theorem update_catalog_token (c : List Service) (s : ClientState) :
    (update_catalog s c).token = s.token := by
  induction c generalizing s with
  | nil => rfl
  | cons sv rest ih =>
    rw [update_catalog_eq_foldl, List.foldl_cons, ← update_catalog_eq_foldl,
      ih, catalogStep_token]

theorem catalogStep_read_service (st : ClientState) (sv : Service)
    (h : sv.name ≠ "cloudMetrics") :
    (catalogStep st sv).read_service = st.read_service := by
  unfold catalogStep
  by_cases hi : sv.name = "cloudMetricsIngest"
  · rw [if_pos hi]
  · rw [if_neg hi, if_neg h]

theorem catalogStep_ingest_service (st : ClientState) (sv : Service)
    (h : sv.name ≠ "cloudMetricsIngest") :
    (catalogStep st sv).ingest_service = st.ingest_service := by
  unfold catalogStep
  rw [if_neg h]
  by_cases hr : sv.name = "cloudMetrics"
  · rw [if_pos hr]
  · rw [if_neg hr]

/-! Claim theorems. -/

/-- C7: `invalidate_token` always clears the cached token, is idempotent,
and leaves the cached catalog entries and every other field of the client
state unchanged. -/
theorem invalidate_token_clears_idempotent_frame (s : ClientState) :
    (invalidate_token s).token = none ∧
    invalidate_token (invalidate_token s) = invalidate_token s ∧
    (invalidate_token s).read_service = s.read_service ∧
    (invalidate_token s).ingest_service = s.ingest_service ∧
    (invalidate_token s).auth_url = s.auth_url ∧
    (invalidate_token s).read_url_override = s.read_url_override ∧
    (invalidate_token s).ingest_url_override = s.ingest_url_override ∧
    (invalidate_token s).apikey = s.apikey ∧
    (invalidate_token s).username = s.username ∧
    (invalidate_token s).region = s.region := by
  refine ⟨rfl, rfl, rfl, rfl, rfl, rfl, rfl, rfl, rfl, rfl⟩

/-- C8: a datapoint constructed without an explicit TTL has
`ttlInSeconds = 15552000`, and one constructed with a negative
`ttl_seconds` has `ttlInSeconds = 0`. -/
theorem datapoint_default_ttl_and_negative_clamp (name : String) (value : Int)
    (ct : Option Int) (unit : Option String) (now : Int) (v : Int)
    (hv : v < 0) :
    (Datapoint.init name value ct none unit now).ttlInSeconds = 15552000 ∧
    (Datapoint.init name value ct (some v) unit now).ttlInSeconds = 0 := by
  constructor
  · simp [Datapoint.init, defaultTTL]
  · simp only [Datapoint.init]
    rw [if_neg (by omega : ¬ v = 0)]
    exact max_eq_right hv.le

/-- C8 witness: instantiated at `ttl_seconds = -5`. -/
theorem datapoint_default_ttl_and_negative_clamp_witness :
    (Datapoint.init "m" 1 none none none 0).ttlInSeconds = 15552000 ∧
    (Datapoint.init "m" 1 none (some (-5)) none 0).ttlInSeconds = 0 :=
  datapoint_default_ttl_and_negative_clamp "m" 1 none none 0 (-5) (by decide)

/-- C10: a datapoint constructed with an explicit `ttl_seconds` of 0 gets
the default `ttlInSeconds = 15552000`, because the default is applied to
every falsy TTL value. -/
theorem datapoint_zero_ttl_gets_default (name : String) (value : Int)
    (ct : Option Int) (unit : Option String) (now : Int) :
    (Datapoint.init name value ct (some 0) unit now).ttlInSeconds = 15552000 := by
  simp [Datapoint.init, defaultTTL]

/-- C6: when an explicit override URL is configured, `read_url` /
`ingest_url` return it and the service catalog is never consulted — the
result is the override whatever the cached services are, including when
they are absent. -/
theorem resolve_url_override_precedence (s : ClientState) (region u v : String)
    (hr : s.read_url_override = some u) (hi : s.ingest_url_override = some v) :
    read_url s region = .ok (some u) ∧ ingest_url s region = .ok (some v) := by
  constructor
  · unfold read_url
    rw [hr]
  · unfold ingest_url
    rw [hi]

/-- C6 witness: overrides configured on a client whose catalog is entirely
absent; resolution still returns the overrides. -/
theorem resolve_url_override_precedence_witness :
    read_url overrideOnlyState "IAD" = .ok (some "http://r.example") ∧
    ingest_url overrideOnlyState "IAD" = .ok (some "http://i.example") :=
  resolve_url_override_precedence overrideOnlyState "IAD" _ _ rfl rfl

/-- C3: when a token is cached, `get_token` returns it unchanged and
performs no identity exchange; starting with no cached token, two
successive `get_token` calls perform exactly one identity exchange in
total and both return the same token. -/
theorem get_token_caching (a1 a2 : AuthResult) (s s1 : ClientState)
    (t1 : String) (n1 : Nat) (hs : s.token = none)
    (h1 : get_token a1 s = .ok (t1, s1, n1)) :
    n1 = 1 ∧ get_token a2 s1 = .ok (t1, s1, 0) ∧
    (∀ st t, st.token = some t → get_token a2 st = .ok (t, st, 0)) := by
  have hcached : ∀ (a : AuthResult) (st : ClientState) (t : String),
      st.token = some t → get_token a st = .ok (t, st, 0) := by
    intro a st t hst
    unfold get_token
    rw [hst]
  cases a1 with
  | err => simp [get_token, hs] at h1
  | ok resp =>
    simp only [get_token, hs] at h1
    rw [Except.ok.injEq, Prod.mk.injEq, Prod.mk.injEq] at h1
    obtain ⟨ht, hs1, hn⟩ := h1
    refine ⟨hn.symm, ?_, hcached a2⟩
    have htok : s1.token = some t1 := by
      rw [← hs1, update_catalog_token, ht]
    exact hcached a2 s1 t1 htok

/-- C3 witness: after one exchange from a token-less state, a second call
returns the cached token with zero exchanges, even against an identity
service that would fail. -/
theorem get_token_caching_witness :
    get_token .err cachedTok1State = .ok ("tok1", cachedTok1State, 0) :=
  (get_token_caching (.ok { tokenId := "tok1", serviceCatalog := [] }) .err
    staleCatalogState cachedTok1State "tok1" 1 rfl rfl).2.1

/-- C4 counterexample: starting from a state with a cached read service
and no token, an identity exchange whose response carries an empty service
catalog (so no `cloudMetrics` entry) leaves the previously stored read
service in place — the prior catalog is not discarded. -/
theorem update_catalog_stale_entry_counterexample :
    get_token (.ok { tokenId := "newtok", serviceCatalog := [] })
        staleCatalogState = .ok ("newtok", afterEmptyCatalogState, 1) ∧
    afterEmptyCatalogState.read_service = some ordOnlyService ∧
    afterEmptyCatalogState.read_service ≠ none := by
  refine ⟨rfl, rfl, by simp [afterEmptyCatalogState, ordOnlyState]⟩

/-- C4 amended: after an identity exchange, catalog entries named
`cloudMetricsIngest` / `cloudMetrics` in the response overwrite the
corresponding stored services, but a stored service whose name does not
appear in the response is retained from before — the prior entries are
merged over, not discarded. -/
theorem update_catalog_retains_missing_entries (s : ClientState)
    (c : List Service) :
    ((∀ sv ∈ c, sv.name ≠ "cloudMetrics") →
      (update_catalog s c).read_service = s.read_service) ∧
    ((∀ sv ∈ c, sv.name ≠ "cloudMetricsIngest") →
      (update_catalog s c).ingest_service = s.ingest_service) := by
  induction c generalizing s with
  | nil => exact ⟨fun _ => rfl, fun _ => rfl⟩
  | cons sv rest ih =>
    constructor
    · intro h
      rw [update_catalog_eq_foldl, List.foldl_cons, ← update_catalog_eq_foldl,
        (ih (catalogStep s sv)).1 (fun x hx => h x (List.mem_cons_of_mem _ hx))]
      exact catalogStep_read_service s sv (h sv (List.mem_cons_self _ _))
    · intro h
      rw [update_catalog_eq_foldl, List.foldl_cons, ← update_catalog_eq_foldl,
        (ih (catalogStep s sv)).2 (fun x hx => h x (List.mem_cons_of_mem _ hx))]
      exact catalogStep_ingest_service s sv (h sv (List.mem_cons_self _ _))

/-- C4 witness: a catalog holding only a `cloudMetricsIngest` entry leaves
the stored read service untouched. -/
theorem update_catalog_retains_missing_entries_witness :
    (update_catalog ordOnlyState [ingestOnlyService]).read_service
      = some ordOnlyService :=
  (update_catalog_retains_missing_entries ordOnlyState [ingestOnlyService]).1
    (by decide)

/-- C5 counterexample: constructing a client against an identity service
that answers successfully performs one identity exchange during
construction and leaves the token populated, not absent. -/
theorem init_counterexample :
    init "http://auth.example" "key" "user" "IAD" none none
        (.ok { tokenId := "tok0", serviceCatalog := [] })
      = .ok (constructedState, 1) ∧
    constructedState.token = some "tok0" ∧ constructedState.token ≠ none := by
  refine ⟨rfl, rfl, by simp [constructedState]⟩

/-- C5 amended: construction itself calls `get_token`, so a successful
construction performs exactly one identity exchange and stores the
exchanged token — the token is populated, not absent, immediately after
construction. -/
theorem init_populates_token (auth_url apikey username region : String)
    (iu ru : Option String) (resp : AuthResponse) (s : ClientState) (n : Nat)
    (h : init auth_url apikey username region iu ru (.ok resp) = .ok (s, n)) :
    s.token = some resp.tokenId ∧ n = 1 := by
  simp only [init, get_token] at h
  rw [Except.ok.injEq, Prod.mk.injEq] at h
  obtain ⟨hs, hn⟩ := h
  refine ⟨?_, hn.symm⟩
  rw [← hs, update_catalog_token]

/-- C5 amended witness: the concrete construction stores the token
`tok0`. -/
theorem init_populates_token_witness : constructedState.token = some "tok0" :=
  (init_populates_token "http://auth.example" "key" "user" "IAD" none none
    { tokenId := "tok0", serviceCatalog := [] } constructedState 1 rfl).1

/-- When no endpoint of the service has the requested region,
`url_for_region` falls off the loop and returns `none`. -/
theorem url_for_region_no_match (svc : Service) (region : String)
    (h : ∀ e ∈ svc.endpoints, e.region ≠ some region) :
    url_for_region svc region = none := by
  unfold url_for_region
  rw [List.find?_eq_none.mpr ?_]
  · rfl
  · intro e he
    simp [h e he]

/-- C2 counterexample: with no override URL configured and a cached read
service whose only endpoint is in region ORD, resolving region IAD
returns `None` silently (the call succeeds with no URL) instead of
failing with an exception. -/
theorem read_url_silent_none_counterexample :
    read_url ordOnlyState "IAD" = .ok none ∧
    read_url ordOnlyState "IAD" ≠ .error () := by
  refine ⟨rfl, by simp [read_url, ordOnlyState, url_for_region,
    ordOnlyService]⟩

/-- C2 amended: with no override URL configured, resolution fails with an
exception only when the catalog entry is absent; when the entry is present
but none of its endpoints matches the requested region, `read_url` /
`ingest_url` silently return `None` instead of failing. -/
theorem resolve_url_no_match (s : ClientState) (region : String)
    (hro : s.read_url_override = none) (hio : s.ingest_url_override = none) :
    (s.read_service = none → read_url s region = .error ()) ∧
    (∀ svc, s.read_service = some svc →
      (∀ e ∈ svc.endpoints, e.region ≠ some region) →
      read_url s region = .ok none) ∧
    (s.ingest_service = none → ingest_url s region = .error ()) ∧
    (∀ svc, s.ingest_service = some svc →
      (∀ e ∈ svc.endpoints, e.region ≠ some region) →
      ingest_url s region = .ok none) := by
  refine ⟨?_, ?_, ?_, ?_⟩
  · intro habs
    unfold read_url
    rw [hro, habs]
  · intro svc hsvc hregions
    unfold read_url
    rw [hro, hsvc]
    show Except.ok (url_for_region svc region) = Except.ok none
    rw [url_for_region_no_match svc region hregions]
  · intro habs
    unfold ingest_url
    rw [hio, habs]
  · intro svc hsvc hregions
    unfold ingest_url
    rw [hio, hsvc]
    show Except.ok (url_for_region svc region) = Except.ok none
    rw [url_for_region_no_match svc region hregions]

/-- C2 amended witness: the ORD-only state resolves region IAD to a
silent `None` on the read side and raises on the (absent) ingest side. -/
theorem resolve_url_no_match_witness :
    read_url ordOnlyState "IAD" = .ok none ∧
    ingest_url ordOnlyState "IAD" = .error () :=
  ⟨(resolve_url_no_match ordOnlyState "IAD" rfl rfl).2.1 ordOnlyService rfl
      (by decide),
    (resolve_url_no_match ordOnlyState "IAD" rfl rfl).2.2.1 rfl⟩

/-- C1: when the first data-plane response of a `request` call is 401, the
cached token is invalidated, a fresh one is obtained by a single identity
exchange, and the request is replayed exactly once carrying the fresh
token; if the replayed response is also an error, the call fails with the
HTTP error for that status; and in every `request` call at most two
data-plane sends occur. -/
theorem request_single_replay_on_401 (transport : Nat → HttpResponse)
    (auth : Nat → AuthResult) (s : ClientState) (t : String)
    (ar : AuthResponse) (htok : s.token = some t)
    (h401 : (transport 0).status = 401) (hauth : auth 0 = .ok ar)
    (herr : isErrorStatus (transport 1).status = true) :
    (request transport auth s).outcome
        = .error (.httpError (transport 1).status) ∧
    (request transport auth s).sends = [t, ar.tokenId] ∧
    (request transport auth s).exchanges = 1 ∧
    (∀ tr au st, (request tr au st).sends.length ≤ 2) := by
  refine ⟨?_, ?_, ?_, ?_⟩
  · simp [request, get_token, invalidate_token, htok, h401, hauth, herr]
  · simp [request, get_token, invalidate_token, htok, h401, hauth, herr]
  · simp [request, get_token, invalidate_token, htok, h401, hauth, herr]
  · intro tr au st
    simp only [request]
    split
    · simp
    · split
      · split
        · simp
        · split <;> simp
      · split <;> simp

/-- C1 witness: against a transport that always answers 401, the call
fails with a 401 HTTP error after exactly two data-plane sends. -/
theorem request_single_replay_on_401_witness :
    (request trAlways401 auFresh ordOnlyState).outcome
        = .error (.httpError 401) ∧
    (request trAlways401 auFresh ordOnlyState).sends = ["tok0", "fresh"] :=
  ⟨(request_single_replay_on_401 trAlways401 auFresh ordOnlyState "tok0"
      { tokenId := "fresh", serviceCatalog := [] } rfl rfl rfl rfl).1,
    (request_single_replay_on_401 trAlways401 auFresh ordOnlyState "tok0"
      { tokenId := "fresh", serviceCatalog := [] } rfl rfl rfl rfl).2.1⟩

/-- C9: when the final (possibly replayed) response of a `request` call
has a success status, the call returns the decoded JSON body, and in
particular returns `none` rather than raising when the body is empty or
not valid JSON. -/
theorem request_success_returns_body (transport : Nat → HttpResponse)
    (auth : Nat → AuthResult) (s : ClientState)
    (hauth : ∀ i, auth i ≠ .err)
    (hsucc : isErrorStatus
        (transport (if (transport 0).status = 401 then 1 else 0)).status
      = false) :
    (request transport auth s).outcome
      = .ok ((transport (if (transport 0).status = 401 then 1 else 0)).json) := by
  have hget : ∀ i st, ∃ t1 s1 n1,
      get_token (auth i) st = .ok (t1, s1, n1) := by
    intro i st
    rcases hst : st.token with _ | t
    · rcases hai : auth i with ⟨resp⟩ | _
      · exact ⟨resp.tokenId,
          update_catalog { st with token := some resp.tokenId }
            resp.serviceCatalog,
          1, by simp [get_token, hst, hai]⟩
      · exact absurd hai (hauth i)
    · exact ⟨t, st, 0, by simp [get_token, hst]⟩
  obtain ⟨t1, s1, n1, h1⟩ := hget 0 s
  by_cases h4 : (transport 0).status = 401
  · simp only [h4, if_true] at hsucc ⊢
    obtain ⟨t2, s3, n2, h2⟩ := hget n1 (invalidate_token s1)
    simp [request, h1, h4, h2, hsucc]
  · simp only [h4, if_false] at hsucc ⊢
    simp [request, h1, h4, hsucc]

/-- C9 witness: a 200 response whose body does not parse as JSON makes the
call return `none` rather than fail. -/
theorem request_success_returns_body_witness :
    (request trNoContent auFresh ordOnlyState).outcome = .ok none :=
  request_success_returns_body trNoContent auFresh ordOnlyState
    (fun i => by simp [auFresh]) (by decide)

end Blueflood
